import Mathlib

/-!
Verification development for the invisible-man AR pipeline.

The definitions below are a shallow embedding of the TypeScript sources:
  - src/types.ts                                 (AppState enumeration)
  - src/unnamed/part_000                         (App component: wrappedOnResults
                                                  debounce logic, capture-background
                                                  effect, MediaPipeService,
                                                  checkFingerOnHead, hasPeople)
  - src/components/InvisibleManExperience.tsx    (useFrame: mask ingestion and
                                                  reveal easing)
  - src/components/LiquidShader.ts               (fragment shader)

JavaScript numbers are modelled as real numbers where the source computes
with square roots (gesture distances, shader), and as rationals or naturals
where the source only adds, multiplies and compares (reveal easing, counters).
Booleans returned by the source stay Bool where the comparisons are decidable
and become Prop where they compare real numbers.
-/

namespace Invisible

/-- Session states, translated from the enum AppState in src/types.ts. -/
inductive AppState where
  | initializing
  | waitingForClearView
  | capturingBackground
  | active
  | error
  deriving DecidableEq, Repr

/-- A pose landmark: a named 2D point in normalized image coordinates.
Only the x and y fields are read by the source code under test. -/
structure Landmark where
  x : ℝ
  y : ℝ

/-- Index of the nose landmark (POSE_LANDMARKS.NOSE in src/unnamed/part_000). -/
def POSE_LANDMARKS_NOSE : ℕ := 0

/-- Index of the left index-finger-tip landmark (POSE_LANDMARKS.LEFT_INDEX). -/
def POSE_LANDMARKS_LEFT_INDEX : ℕ := 19

/-- Index of the right index-finger-tip landmark (POSE_LANDMARKS.RIGHT_INDEX). -/
def POSE_LANDMARKS_RIGHT_INDEX : ℕ := 20

/-- Translation of getDistance inside checkFingerOnHead:
Math.sqrt(Math.pow(p1.x - p2.x, 2) + Math.pow(p1.y - p2.y, 2)). -/
noncomputable def getDistance (p1 p2 : Landmark) : ℝ :=
  Real.sqrt ((p1.x - p2.x) ^ 2 + (p1.y - p2.y) ^ 2)

/-- Translation of the constant HEAD_PROXIMITY_THRESHOLD = 0.2. -/
def HEAD_PROXIMITY_THRESHOLD : ℝ := 0.2

/-- Translation of checkFingerOnHead (src/unnamed/part_000, lines 379-401).
An absent array models a missing poseLandmarks value; indexing a too-short
array yields none, modelling the undefined of JavaScript. True/false return
values are modelled as the Prop being true/false; totality of this function
models that the source returns without raising an error. -/
noncomputable def checkFingerOnHead : Option (List Landmark) → Prop
  | none => False
  | some l =>
    if l.length = 0 then False
    else
      match l.get? POSE_LANDMARKS_NOSE, l.get? POSE_LANDMARKS_LEFT_INDEX,
            l.get? POSE_LANDMARKS_RIGHT_INDEX with
      | some nose, some leftIndex, some rightIndex =>
        (getDistance leftIndex nose < HEAD_PROXIMITY_THRESHOLD ∧ leftIndex.y < nose.y) ∨
        (getDistance rightIndex nose < HEAD_PROXIMITY_THRESHOLD ∧ rightIndex.y < nose.y)
      | _, _, _ => False

/-- Translation of hasPeople (src/unnamed/part_000, lines 403-405):
landmarks && landmarks.length > 0. -/
def hasPeople (landmarks : Option (List Landmark)) : Bool :=
  match landmarks with
  | none => false
  | some l => decide (0 < l.length)

/-- The part of the App state read and written by wrappedOnResults:
the current appState (through stateRef) and noPersonTimerRef. -/
structure LogicState where
  state : AppState
  noPersonTimer : ℕ
  deriving DecidableEq, Repr

/-- Translation of the debounce branch of wrappedOnResults
(src/unnamed/part_000, lines 51-79) restricted to the fields it mutates.
In the WAITING_FOR_CLEAR_VIEW state: a frame without a person increments
noPersonTimerRef and transitions to CAPTURING_BACKGROUND once the counter
exceeds 30; a frame with a person resets the counter to 0. The ACTIVE
branch of the source only updates the isTouchingHead UI flag and leaves
both fields of this record unchanged. -/
def wrappedOnResultsStep (s : LogicState) (poseLandmarks : Option (List Landmark)) :
    LogicState :=
  let isPersonPresent := hasPeople poseLandmarks
  if s.state = AppState.waitingForClearView then
    if isPersonPresent = false then
      let t := s.noPersonTimer + 1
      if 30 < t then ⟨AppState.capturingBackground, t⟩
      else ⟨s.state, t⟩
    else
      ⟨s.state, 0⟩
  else s

/-- Run n consecutive frames with no person detected, starting from
WAITING_FOR_CLEAR_VIEW with the counter at its initial value 0. -/
def ticksNoPerson (n : ℕ) : LogicState :=
  (fun s => wrappedOnResultsStep s none)^[n] ⟨AppState.waitingForClearView, 0⟩

/-- Translation of THREE.MathUtils.lerp(x, y, t) = (1 - t) * x + t * y,
the three.js library function called by the reveal update. -/
def lerp (x y t : ℚ) : ℚ := (1 - t) * x + t * y

/-- Translation of the reveal update (src/components/InvisibleManExperience.tsx,
lines 92-94): targetReveal = isTouchingHead ? 1.0 : 0.0;
revealProgress = lerp(revealProgress, targetReveal, delta * 3.0). -/
def revealStep (isTouchingHead : Bool) (delta r : ℚ) : ℚ :=
  lerp r (if isTouchingHead then 1 else 0) (delta * 3)

/-- RevealFactor after n ticks with the gesture continuously active and a
constant per-tick elapsed time dt, starting from 0. -/
def revealSeq (dt : ℚ) : ℕ → ℚ
  | 0 => 0
  | n + 1 => revealStep true dt (revealSeq dt n)

/-- Video frame dimensions (videoWidth, videoHeight). The captured background
plate is modelled by the dimensions of the canvas it was drawn at. -/
structure VideoDims where
  videoWidth : ℕ
  videoHeight : ℕ
  deriving DecidableEq, Repr

/-- Translation of the capture-background effect (src/unnamed/part_000,
lines 112-127). It runs when appState is CAPTURING_BACKGROUND and the video
element exists; it sizes a canvas to the video dimensions (with no check
that they are non-zero), and if a 2d context is obtainable it draws the
frame, stores the data URL as the background plate and transitions to
ACTIVE. Whether getContext succeeds is an external browser fact, passed in
as ctxAvailable. The result is the pair (new appState, new plate). -/
def captureBackgroundEffect (appState : AppState) (video : Option VideoDims)
    (ctxAvailable : Bool) (backgroundPlate : Option VideoDims) :
    AppState × Option VideoDims :=
  match appState, video with
  | AppState.capturingBackground, some dims =>
    if ctxAvailable then (AppState.active, some dims)
    else (AppState.capturingBackground, backgroundPlate)
  | _, _ => (appState, backgroundPlate)

/-- Observable state of a MediaPipeService instance together with the
resources it manages (src/unnamed/part_000, lines 274-376). streamTracksLive
records whether the tracks of the acquired camera stream are running,
srcObjectSet whether the stream was attached to the video element,
animationPending whether a requestAnimationFrame callback is scheduled,
loopStarted whether processVideo has been entered, and poseOpen whether the
Pose instance is still open. -/
structure ServiceState where
  isStopped : Bool
  streamTracksLive : Bool
  srcObjectSet : Bool
  animationPending : Bool
  loopStarted : Bool
  poseOpen : Bool
  deriving DecidableEq, Repr

/-- Translation of MediaPipeService.stop (src/unnamed/part_000, lines
359-375): set isStopped, cancel the scheduled animation frame, stop every
track of the stream attached as srcObject (when one is attached) and detach
it, and close the Pose instance. -/
def MediaPipeService.stop (s : ServiceState) : ServiceState :=
  { s with
    isStopped := true
    animationPending := false
    streamTracksLive := if s.srcObjectSet then false else s.streamTracksLive
    srcObjectSet := false
    poseOpen := false }

/-- Translation of the continuation of MediaPipeService.initialize that runs
once getUserMedia resolves (src/unnamed/part_000, lines 319-340). The camera
stream has just arrived, so its tracks are live. If stop() already ran while
the acquisition was pending (isStopped is set), every track is stopped and
the method returns before attaching the stream; otherwise the stream is
attached, playback starts, and unless stop() intervened, processVideo starts
the frame loop. -/
def MediaPipeService.initializeAfterStream (s : ServiceState) : ServiceState :=
  let s1 := { s with streamTracksLive := true }
  if s1.isStopped then
    { s1 with streamTracksLive := false }
  else
    let s2 := { s1 with srcObjectSet := true }
    if s2.isStopped then s2
    else { s2 with loopStarted := true, animationPending := true }

/-- The App-level configuration for the whole-session transition system:
the appState React state, the backgroundDataUrl plate (modelled by the
dimensions it was captured at), the noPersonTimerRef counter and the
revealProgress ref of the mounted experience component. -/
structure Config where
  appState : AppState
  backgroundPlate : Option VideoDims
  noPersonTimer : ℕ
  revealProgress : ℚ
  deriving DecidableEq, Repr

/-- External events driving the App component (src/unnamed/part_000).
initOk and initFail are the resolution and rejection of
MediaPipeService.initialize; frame is a MediaPipe results callback carrying
the pose landmarks; capture is the capture-background effect running with
the current video dimensions and 2d-context availability; renderTick is a
render frame of the mounted experience component; restart is a click of the
retry button. -/
inductive Ev where
  | initOk
  | initFail
  | frame (poseLandmarks : Option (List Landmark))
  | capture (video : Option VideoDims) (ctxAvailable : Bool)
  | renderTick (isTouchingHead : Bool) (delta : ℚ)
  | restart

/-- Initial configuration on mount: appState INITIALIZING, no plate,
noPersonTimerRef 0 and revealProgress 0. -/
def initialConfig : Config := ⟨AppState.initializing, none, 0, 0⟩

/-- One event step of the App, assembled from the translated pieces.
Guards record where each callback can fire in the source: the initialize
promise settles exactly once per attempt and only while INITIALIZING (the
retry button, the only way to leave ERROR, is rendered only in ERROR, and a
settled promise does not fire again); the capture effect only acts in
CAPTURING_BACKGROUND; renderTick only occurs while the experience component
is mounted, which App does only in ACTIVE; restart (the retry button) is
rendered only in ERROR and resets nothing besides appState. -/
def stepEv (c : Config) : Ev → Config
  | Ev.initOk =>
    if c.appState = AppState.initializing then
      { c with appState := AppState.waitingForClearView }
    else c
  | Ev.initFail =>
    if c.appState = AppState.initializing then
      { c with appState := AppState.error }
    else c
  | Ev.frame poseLandmarks =>
    let l := wrappedOnResultsStep ⟨c.appState, c.noPersonTimer⟩ poseLandmarks
    { c with appState := l.state, noPersonTimer := l.noPersonTimer }
  | Ev.capture video ctxAvailable =>
    let r := captureBackgroundEffect c.appState video ctxAvailable c.backgroundPlate
    { c with appState := r.1, backgroundPlate := r.2 }
  | Ev.renderTick isTouchingHead delta =>
    if c.appState = AppState.active then
      { c with revealProgress := revealStep isTouchingHead delta c.revealProgress }
    else c
  | Ev.restart =>
    if c.appState = AppState.error then
      { c with appState := AppState.initializing }
    else c

/-- Configurations reachable from the initial configuration. -/
inductive Reachable : Config → Prop where
  | init : Reachable initialConfig
  | step : ∀ {c : Config} (e : Ev), Reachable c → Reachable (stepEv c e)

/-- Inductive invariant of the App transition system: the plate exists
exactly in ACTIVE; revealProgress is 0 outside ACTIVE; the debounce counter
is 0 in INITIALIZING and ERROR. -/
def Inv (c : Config) : Prop :=
  (c.backgroundPlate.isSome = true ↔ c.appState = AppState.active) ∧
  (c.appState ≠ AppState.active → c.revealProgress = 0) ∧
  ((c.appState = AppState.initializing ∨ c.appState = AppState.error) →
    c.noPersonTimer = 0)

/-- A MediaPipe inference result as ingested by the useFrame callback:
an image, an optional segmentation mask (both modelled by opaque numeric
identities) and optional pose landmarks. -/
structure MPResults where
  image : ℕ
  segmentationMask : Option ℕ
  poseLandmarks : Option (List Landmark)

/-- The persistent mask surface of the experience component: the off-screen
mask canvas (its dimensions and the mask currently drawn on it) and the
CanvasTexture built from it (whether it exists, and how many times
needsUpdate has been raised). -/
structure MaskSurface where
  width : ℕ
  height : ℕ
  drawnMask : Option ℕ
  textureCreated : Bool
  textureUpdates : ℕ
  deriving DecidableEq, Repr

/-- Translation of the mask-ingestion block of the useFrame callback
(src/components/InvisibleManExperience.tsx, lines 67-90). When the latest
results exist and carry a segmentation mask: resize the canvas if its size
differs from the native video size, then, if a 2d context is obtainable,
draw the mask and create the CanvasTexture on first use or raise
needsUpdate afterwards. In every other case the surface is untouched. -/
def updateMaskFromResults (m : MaskSurface) (results : Option MPResults)
    (videoWidth videoHeight : ℕ) (ctxAvailable : Bool) : MaskSurface :=
  match results with
  | none => m
  | some r =>
    match r.segmentationMask with
    | none => m
    | some maskImage =>
      let m1 :=
        if m.width ≠ videoWidth ∨ m.height ≠ videoHeight then
          { m with width := videoWidth, height := videoHeight }
        else m
      if ctxAvailable then
        let m2 := { m1 with drawnMask := some maskImage }
        if m2.textureCreated = false then { m2 with textureCreated := true }
        else { m2 with textureUpdates := m2.textureUpdates + 1 }
      else m1

/-- A GLSL vec2 over the reals. -/
@[ext]
structure Vec2 where
  x : ℝ
  y : ℝ

/-- A GLSL vec3 over the reals. -/
@[ext]
structure Vec3 where
  x : ℝ
  y : ℝ
  z : ℝ

/-- A GLSL vec4 over the reals. -/
@[ext]
structure Vec4 where
  x : ℝ
  y : ℝ
  z : ℝ
  w : ℝ

instance : Add Vec2 := ⟨fun a b => ⟨a.x + b.x, a.y + b.y⟩⟩

instance : Sub Vec2 := ⟨fun a b => ⟨a.x - b.x, a.y - b.y⟩⟩

instance : HMul Vec2 ℝ Vec2 := ⟨fun v s => ⟨v.x * s, v.y * s⟩⟩

instance : HAdd Vec2 ℝ Vec2 := ⟨fun v s => ⟨v.x + s, v.y + s⟩⟩

instance : HSub Vec2 ℝ Vec2 := ⟨fun v s => ⟨v.x - s, v.y - s⟩⟩

instance : Add Vec3 := ⟨fun a b => ⟨a.x + b.x, a.y + b.y, a.z + b.z⟩⟩

instance : Sub Vec3 := ⟨fun a b => ⟨a.x - b.x, a.y - b.y, a.z - b.z⟩⟩

instance : Mul Vec3 := ⟨fun a b => ⟨a.x * b.x, a.y * b.y, a.z * b.z⟩⟩

instance : HMul Vec3 ℝ Vec3 := ⟨fun v s => ⟨v.x * s, v.y * s, v.z * s⟩⟩

instance : HMul ℝ Vec3 Vec3 := ⟨fun s v => ⟨s * v.x, s * v.y, s * v.z⟩⟩

instance : HAdd Vec3 ℝ Vec3 := ⟨fun v s => ⟨v.x + s, v.y + s, v.z + s⟩⟩

instance : HAdd ℝ Vec3 Vec3 := ⟨fun s v => ⟨s + v.x, s + v.y, s + v.z⟩⟩

instance : HSub Vec3 ℝ Vec3 := ⟨fun v s => ⟨v.x - s, v.y - s, v.z - s⟩⟩

instance : HSub ℝ Vec3 Vec3 := ⟨fun s v => ⟨s - v.x, s - v.y, s - v.z⟩⟩

instance : Add Vec4 := ⟨fun a b => ⟨a.x + b.x, a.y + b.y, a.z + b.z, a.w + b.w⟩⟩

instance : HMul Vec4 ℝ Vec4 := ⟨fun v s => ⟨v.x * s, v.y * s, v.z * s, v.w * s⟩⟩

/-- GLSL dot on vec2. -/
def dot2 (a b : Vec2) : ℝ := a.x * b.x + a.y * b.y

/-- GLSL dot on vec3. -/
def dot3 (a b : Vec3) : ℝ := a.x * b.x + a.y * b.y + a.z * b.z

/-- GLSL floor, componentwise on vec2. -/
noncomputable def floorV2 (v : Vec2) : Vec2 := ⟨Int.floor v.x, Int.floor v.y⟩

/-- GLSL floor, componentwise on vec3. -/
noncomputable def floorV3 (v : Vec3) : Vec3 :=
  ⟨Int.floor v.x, Int.floor v.y, Int.floor v.z⟩

/-- GLSL fract(x) = x - floor(x), componentwise on vec3. -/
noncomputable def fractV3 (v : Vec3) : Vec3 :=
  ⟨v.x - Int.floor v.x, v.y - Int.floor v.y, v.z - Int.floor v.z⟩

/-- GLSL abs, componentwise on vec3. -/
def absV3 (v : Vec3) : Vec3 := ⟨|v.x|, |v.y|, |v.z|⟩

/-- GLSL max of a vec3 against a scalar, componentwise. -/
noncomputable def maxV3 (v : Vec3) (s : ℝ) : Vec3 := ⟨max v.x s, max v.y s, max v.z s⟩

/-- GLSL clamp on scalars. -/
noncomputable def clamp (x minVal maxVal : ℝ) : ℝ := min (max x minVal) maxVal

/-- GLSL smoothstep: Hermite interpolation of the clamped ramp. -/
noncomputable def smoothstep (edge0 edge1 x : ℝ) : ℝ :=
  let t := clamp ((x - edge0) / (edge1 - edge0)) 0 1
  t * t * (3 - 2 * t)

/-- GLSL mix(a, b, t) = a * (1 - t) + b * t on scalars. -/
def glslMix (a b t : ℝ) : ℝ := a * (1 - t) + b * t

/-- GLSL mix on vec4 with a scalar weight, componentwise. -/
def mixV4 (a b : Vec4) (t : ℝ) : Vec4 :=
  ⟨glslMix a.x b.x t, glslMix a.y b.y t, glslMix a.z b.z t, glslMix a.w b.w t⟩

/-- GLSL length of a vec2. -/
noncomputable def glslLength2 (v : Vec2) : ℝ := Real.sqrt (dot2 v v)

/-- Translation of mod289 on vec3 from the fragment shader
(src/components/LiquidShader.ts): x - floor(x * (1.0 / 289.0)) * 289.0. -/
noncomputable def mod289V3 (x : Vec3) : Vec3 :=
  x - floorV3 (x * ((1.0 : ℝ) / 289.0)) * (289.0 : ℝ)

/-- Translation of mod289 on vec2 from the fragment shader. -/
noncomputable def mod289V2 (x : Vec2) : Vec2 :=
  x - floorV2 (x * ((1.0 : ℝ) / 289.0)) * (289.0 : ℝ)

/-- Translation of permute from the fragment shader:
mod289(((x * 34.0) + 1.0) * x). -/
noncomputable def permute (x : Vec3) : Vec3 :=
  mod289V3 (((x * (34.0 : ℝ)) + (1.0 : ℝ)) * x)

/-- Translation of the 2D simplex noise snoise from the fragment shader
(src/components/LiquidShader.ts, lines 26-52). Swizzles are spelled out as
explicit component constructions, and the reassignments of i, x12 and m are
given numbered names. -/
noncomputable def snoise (v : Vec2) : ℝ :=
  let C : Vec4 := ⟨0.211324865405187, 0.366025403784439,
                   -0.577350269189626, 0.024390243902439⟩
  let i := floorV2 (v + dot2 v ⟨C.y, C.y⟩)
  let x0 := v - i + dot2 i ⟨C.x, C.x⟩
  let i1 : Vec2 := if x0.x > x0.y then ⟨1.0, 0.0⟩ else ⟨0.0, 1.0⟩
  let x12 : Vec4 := ⟨x0.x + C.x, x0.y + C.x, x0.x + C.z, x0.y + C.z⟩
  let x12xy : Vec2 := ⟨x12.x - i1.x, x12.y - i1.y⟩
  let x12zw : Vec2 := ⟨x12.z, x12.w⟩
  let i2 := mod289V2 i
  let p := permute (permute (i2.y + (⟨0.0, i1.y, 1.0⟩ : Vec3)) + i2.x +
    (⟨0.0, i1.x, 1.0⟩ : Vec3))
  let m0 := maxV3 ((0.5 : ℝ) -
    (⟨dot2 x0 x0, dot2 x12xy x12xy, dot2 x12zw x12zw⟩ : Vec3)) 0.0
  let m1 := m0 * m0
  let m2 := m1 * m1
  let xv := (2.0 : ℝ) * fractV3 (p * C.w) - (1.0 : ℝ)
  let h := absV3 xv - (0.5 : ℝ)
  let ox := floorV3 (xv + (0.5 : ℝ))
  let a0 := xv - ox
  let m3 := m2 * ((1.79284291400159 : ℝ) -
    (0.85373472095314 : ℝ) * (a0 * a0 + h * h))
  let g : Vec3 := ⟨a0.x * x0.x + h.x * x0.y,
                   a0.y * x12xy.x + h.y * x12xy.y,
                   a0.z * x12zw.x + h.z * x12zw.y⟩
  130.0 * dot3 m3 g

/-- Translation of the main function of the fragment shader
(src/components/LiquidShader.ts, lines 54-125). The three sampler uniforms
are modelled as functions from uv coordinates to RGBA colors; texture2D(t, p).r
is (t p).x. The result is the value written to gl_FragColor. -/
noncomputable def fragmentMain (uTime : ℝ)
    (uBackgroundTexture uVideoTexture uMaskTexture : Vec2 → Vec4)
    (uRevealFactor : ℝ) (uResolution : Vec2) (vUv : Vec2) : Vec4 :=
  let maskVal := (uMaskTexture vUv).x
  let px : Vec2 := ⟨1.0 / uResolution.x, 1.0 / uResolution.y⟩
  let radius : ℝ := 5.0
  let offset := px * radius
  let n := (uMaskTexture (vUv + (⟨0.0, offset.y⟩ : Vec2))).x
  let s := (uMaskTexture (vUv - (⟨0.0, offset.y⟩ : Vec2))).x
  let e := (uMaskTexture (vUv + (⟨offset.x, 0.0⟩ : Vec2))).x
  let w := (uMaskTexture (vUv - (⟨offset.x, 0.0⟩ : Vec2))).x
  let nw := (uMaskTexture (vUv + (⟨-offset.x, offset.y⟩ : Vec2))).x
  let ne := (uMaskTexture (vUv + (⟨offset.x, offset.y⟩ : Vec2))).x
  let sw := (uMaskTexture (vUv + (⟨-offset.x, -offset.y⟩ : Vec2))).x
  let se := (uMaskTexture (vUv + (⟨offset.x, -offset.y⟩ : Vec2))).x
  let gx := (ne + 2.0 * e + se) - (nw + 2.0 * w + sw)
  let gy := (nw + 2.0 * n + ne) - (sw + 2.0 * s + se)
  let edgeMag := glslLength2 ⟨gx, gy⟩
  let isEdge := smoothstep 0.0 2.5 edgeMag
  let noiseScale : ℝ := 4.0
  let timeScale : ℝ := 0.5
  let noise := snoise (vUv * noiseScale + (uTime * timeScale : ℝ))
  let noise2 := snoise (vUv * (noiseScale * 0.7) -
    (uTime * (timeScale * 0.8) : ℝ) + (10.0 : ℝ))
  let combinedNoise := (noise + noise2) * 0.5
  let distortion : Vec2 := ⟨combinedNoise * 0.02, combinedNoise * 0.02⟩
  let distortedBg := uBackgroundTexture (vUv + distortion)
  let highlight := smoothstep 0.3 0.9 combinedNoise * 0.6
  let liquidColorTint : Vec4 := ⟨0.9, 0.95, 1.0, 0.0⟩
  let liquidColor := distortedBg + liquidColorTint * highlight
  let cleanBg := uBackgroundTexture vUv
  let personColor := uVideoTexture vUv
  let outputColor := cleanBg
  let outputColor1 := mixV4 outputColor liquidColor isEdge
  let outputColor2 := mixV4 outputColor1 personColor (uRevealFactor * maskVal)
  outputColor2

/-- The edge/background-blended color of the shader: the value of
outputColor after the mix toward the liquid color and before the reveal mix
(src/components/LiquidShader.ts, lines 54-118). This is the full shader
computation with the final reveal blend omitted. -/
noncomputable def edgeBackgroundBlend (uTime : ℝ)
    (uBackgroundTexture uMaskTexture : Vec2 → Vec4)
    (uResolution vUv : Vec2) : Vec4 :=
  let px : Vec2 := ⟨1.0 / uResolution.x, 1.0 / uResolution.y⟩
  let radius : ℝ := 5.0
  let offset := px * radius
  let n := (uMaskTexture (vUv + (⟨0.0, offset.y⟩ : Vec2))).x
  let s := (uMaskTexture (vUv - (⟨0.0, offset.y⟩ : Vec2))).x
  let e := (uMaskTexture (vUv + (⟨offset.x, 0.0⟩ : Vec2))).x
  let w := (uMaskTexture (vUv - (⟨offset.x, 0.0⟩ : Vec2))).x
  let nw := (uMaskTexture (vUv + (⟨-offset.x, offset.y⟩ : Vec2))).x
  let ne := (uMaskTexture (vUv + (⟨offset.x, offset.y⟩ : Vec2))).x
  let sw := (uMaskTexture (vUv + (⟨-offset.x, -offset.y⟩ : Vec2))).x
  let se := (uMaskTexture (vUv + (⟨offset.x, -offset.y⟩ : Vec2))).x
  let gx := (ne + 2.0 * e + se) - (nw + 2.0 * w + sw)
  let gy := (nw + 2.0 * n + ne) - (sw + 2.0 * s + se)
  let edgeMag := glslLength2 ⟨gx, gy⟩
  let isEdge := smoothstep 0.0 2.5 edgeMag
  let noiseScale : ℝ := 4.0
  let timeScale : ℝ := 0.5
  let noise := snoise (vUv * noiseScale + (uTime * timeScale : ℝ))
  let noise2 := snoise (vUv * (noiseScale * 0.7) -
    (uTime * (timeScale * 0.8) : ℝ) + (10.0 : ℝ))
  let combinedNoise := (noise + noise2) * 0.5
  let distortion : Vec2 := ⟨combinedNoise * 0.02, combinedNoise * 0.02⟩
  let distortedBg := uBackgroundTexture (vUv + distortion)
  let highlight := smoothstep 0.3 0.9 combinedNoise * 0.6
  let liquidColorTint : Vec4 := ⟨0.9, 0.95, 1.0, 0.0⟩
  let liquidColor := distortedBg + liquidColorTint * highlight
  let cleanBg := uBackgroundTexture vUv
  mixV4 cleanBg liquidColor isEdge

/-- The distorted and highlighted liquid color of the shader: the value of
the variable liquidColor (src/components/LiquidShader.ts, lines 84-106). -/
noncomputable def liquidColorAt (uTime : ℝ)
    (uBackgroundTexture : Vec2 → Vec4) (vUv : Vec2) : Vec4 :=
  let noiseScale : ℝ := 4.0
  let timeScale : ℝ := 0.5
  let noise := snoise (vUv * noiseScale + (uTime * timeScale : ℝ))
  let noise2 := snoise (vUv * (noiseScale * 0.7) -
    (uTime * (timeScale * 0.8) : ℝ) + (10.0 : ℝ))
  let combinedNoise := (noise + noise2) * 0.5
  let distortion : Vec2 := ⟨combinedNoise * 0.02, combinedNoise * 0.02⟩
  let distortedBg := uBackgroundTexture (vUv + distortion)
  let highlight := smoothstep 0.3 0.9 combinedNoise * 0.6
  let liquidColorTint : Vec4 := ⟨0.9, 0.95, 1.0, 0.0⟩
  distortedBg + liquidColorTint * highlight

/-- Modelled from the spec: the edge-intensity computation as the spec
describes it, written independently of the shader source. Eight neighbors
are sampled at a radius of 5 texels; the horizontal and vertical gradients
weight cardinal neighbors twice and diagonal neighbors once (Sobel kernel);
the Euclidean magnitude of the gradient is mapped through smoothstep over
the input range 0.0 to 2.5. -/
noncomputable def edgeIntensitySpec (uMaskTexture : Vec2 → Vec4)
    (uResolution vUv : Vec2) : ℝ :=
  let dx := 1.0 / uResolution.x * 5.0
  let dy := 1.0 / uResolution.y * 5.0
  let north := (uMaskTexture ⟨vUv.x, vUv.y + dy⟩).x
  let south := (uMaskTexture ⟨vUv.x, vUv.y - dy⟩).x
  let east := (uMaskTexture ⟨vUv.x + dx, vUv.y⟩).x
  let west := (uMaskTexture ⟨vUv.x - dx, vUv.y⟩).x
  let northwest := (uMaskTexture ⟨vUv.x - dx, vUv.y + dy⟩).x
  let northeast := (uMaskTexture ⟨vUv.x + dx, vUv.y + dy⟩).x
  let southwest := (uMaskTexture ⟨vUv.x - dx, vUv.y - dy⟩).x
  let southeast := (uMaskTexture ⟨vUv.x + dx, vUv.y - dy⟩).x
  let gx := (northeast + 2.0 * east + southeast) -
    (northwest + 2.0 * west + southwest)
  let gy := (northwest + 2.0 * north + northeast) -
    (southwest + 2.0 * south + southeast)
  smoothstep 0.0 2.5 (Real.sqrt (gx ^ 2 + gy ^ 2))

/-- Modelled from the spec: the per-pixel composition order as the spec
describes it. Start from the clean background color, blend toward the
liquid color with the edge intensity as the weight, then blend that result
toward the live-subject color with revealFactor times maskValue as the
final weight. -/
def compositionOrderSpec (cleanBg liquidColor personColor : Vec4)
    (edgeIntensity revealFactor maskValue : ℝ) : Vec4 :=
  mixV4 (mixV4 cleanBg liquidColor edgeIntensity) personColor
    (revealFactor * maskValue)

/-- Closed form of the reveal sequence under a continuously active gesture:
the gap below 1 decays geometrically with ratio 1 - dt * 3. -/
theorem revealSeq_closed_form (dt : ℚ) (n : ℕ) :
    revealSeq dt n = 1 - (1 - dt * 3) ^ n := by
  induction n with
  | zero => simp [revealSeq]
  | succ n ih =>
    rw [revealSeq, revealStep, lerp, ih, pow_succ]
    norm_num
    ring

/-- C1 counterexample: after exactly 30 consecutive no-person frames from
WaitingForClearView with the counter at 0, the state machine has not
transitioned: the code increments the counter before comparing it with the
strict bound 30, so the transition happens on tick 31, not on tick 30 as
the claim states. -/
theorem C1_counterexample :
    (ticksNoPerson 30).state = AppState.waitingForClearView ∧
    (ticksNoPerson 30).state ≠ AppState.capturingBackground := by
  decide

set_option maxRecDepth 8000 in
/-- C1 (amended): for every run of the state machine in WaitingForClearView,
if the presence signal is false for consecutive processed ticks with no
interruption, then through tick 30 the state is still WaitingForClearView
with the no-person counter equal to the tick count, and the state
transitions to CapturingBackground on tick 31 and not earlier; every tick
on which a person is detected resets the no-person counter to exactly 0. -/
theorem C1_debouncer_amended :
    (∀ n : ℕ, n ≤ 30 → ticksNoPerson n = ⟨AppState.waitingForClearView, n⟩) ∧
    (ticksNoPerson 31).state = AppState.capturingBackground ∧
    (∀ (s : LogicState) (lm : Option (List Landmark)),
      s.state = AppState.waitingForClearView → hasPeople lm = true →
      (wrappedOnResultsStep s lm).noPersonTimer = 0) := by
  refine ⟨?_, by decide, ?_⟩
  · intro n hn
    interval_cases n <;> decide
  · intro s lm hs hp
    simp [wrappedOnResultsStep, hs, hp]

/-- C1 witness: the amended theorem evaluated at tick 12 and at a concrete
frame in which a person is detected while the counter is 7. -/
theorem C1_debouncer_amended_witness :
    ticksNoPerson 12 = ⟨AppState.waitingForClearView, 12⟩ ∧
    (wrappedOnResultsStep ⟨AppState.waitingForClearView, 7⟩
      (some [(⟨0, 0⟩ : Landmark)])).noPersonTimer = 0 :=
  ⟨C1_debouncer_amended.1 12 (by decide),
   C1_debouncer_amended.2.2 ⟨AppState.waitingForClearView, 7⟩
     (some [(⟨0, 0⟩ : Landmark)]) rfl (by simp [hasPeople])⟩

/-- C2 counterexample: dt = 1 satisfies the claimed bound dt ≤ 1.0 second,
yet a single tick from RevealFactor 0 with the gesture active yields 3,
overshooting far above 1.0: the lerp factor delta * 3.0 exceeds 1 for any
dt above one third of a second. -/
theorem C2_counterexample :
    (1 : ℚ) ≤ 1 ∧ revealSeq 1 1 = 3 ∧ (1 : ℚ) < revealSeq 1 1 := by
  norm_num [revealSeq, revealStep, lerp]

/-- C2 (amended): with gestureActive held continuously true from
RevealFactor = 0 and any fixed per-tick elapsed time dt with 0 < dt and
dt * 3 < 1 (dt strictly below one third of a second), RevealFactor strictly
increases every tick, always stays strictly below 1.0 (no overshoot), and
asymptotically approaches 1.0: the gap below 1 eventually falls under every
positive bound. -/
theorem C2_reveal_amended (dt : ℚ) (h0 : 0 < dt) (h1 : dt * 3 < 1) :
    (∀ n : ℕ, revealSeq dt n < revealSeq dt (n + 1)) ∧
    (∀ n : ℕ, revealSeq dt n < 1) ∧
    (∀ ε : ℚ, 0 < ε → ∃ N : ℕ, ∀ n : ℕ, N ≤ n → 1 - revealSeq dt n < ε) := by
  have hb0 : 0 < 1 - dt * 3 := by linarith
  have hb1 : 1 - dt * 3 < 1 := by linarith
  refine ⟨?_, ?_, ?_⟩
  · intro n
    rw [revealSeq_closed_form, revealSeq_closed_form]
    have h : (1 - dt * 3) ^ (n + 1) < (1 - dt * 3) ^ n :=
      pow_lt_pow_right_of_lt_one₀ hb0 hb1 (Nat.lt_succ_self n)
    linarith
  · intro n
    rw [revealSeq_closed_form]
    have h := pow_pos hb0 n
    linarith
  · intro ε hε
    obtain ⟨N, hN⟩ := exists_pow_lt_of_lt_one hε hb1
    refine ⟨N, fun n hn => ?_⟩
    rw [revealSeq_closed_form]
    have hmono : (1 - dt * 3) ^ n ≤ (1 - dt * 3) ^ N :=
      pow_le_pow_of_le_one hb0.le hb1.le hn
    linarith

/-- C2 witness: the amended theorem evaluated at dt = 1/4 and tick 5. -/
theorem C2_reveal_amended_witness : revealSeq (1 / 4) 5 < 1 :=
  (C2_reveal_amended (1 / 4) (by norm_num) (by norm_num)).2.1 5

/-- C5: for every landmark frame containing nose, left-index and
right-index landmarks, the gesture evaluator returns true iff for at least
one hand the Euclidean distance (in normalized coordinates, over x and y)
between that hand finger tip and the nose is strictly below 0.2 and the
finger y coordinate is strictly smaller than the nose y coordinate; in
particular, when both hands are at distance strictly greater than 0.2 it
returns false even when the vertical condition holds. -/
theorem C5_gesture_characterization (ls : List Landmark) (nose li ri : Landmark)
    (h0 : ls.get? POSE_LANDMARKS_NOSE = some nose)
    (h19 : ls.get? POSE_LANDMARKS_LEFT_INDEX = some li)
    (h20 : ls.get? POSE_LANDMARKS_RIGHT_INDEX = some ri) :
    (checkFingerOnHead (some ls) ↔
      ((Real.sqrt ((li.x - nose.x) ^ 2 + (li.y - nose.y) ^ 2) < 0.2 ∧
        li.y < nose.y) ∨
       (Real.sqrt ((ri.x - nose.x) ^ 2 + (ri.y - nose.y) ^ 2) < 0.2 ∧
        ri.y < nose.y))) ∧
    (0.2 < Real.sqrt ((li.x - nose.x) ^ 2 + (li.y - nose.y) ^ 2) →
     0.2 < Real.sqrt ((ri.x - nose.x) ^ 2 + (ri.y - nose.y) ^ 2) →
     ¬ checkFingerOnHead (some ls)) := by
  have hlen : ¬ ls.length = 0 := by
    intro h
    rw [List.length_eq_zero] at h
    subst h
    simp [POSE_LANDMARKS_NOSE] at h0
  have hcheck : checkFingerOnHead (some ls) ↔
      ((getDistance li nose < HEAD_PROXIMITY_THRESHOLD ∧ li.y < nose.y) ∨
       (getDistance ri nose < HEAD_PROXIMITY_THRESHOLD ∧ ri.y < nose.y)) := by
    simp only [checkFingerOnHead]
    rw [if_neg hlen, h0, h19, h20]
  constructor
  · exact hcheck
  · intro hL hR hck
    rcases hcheck.mp hck with ⟨hlt, _⟩ | ⟨hlt, _⟩
    · exact absurd hlt (lt_asymm hL)
    · exact absurd hlt (lt_asymm hR)

/-- C5 witness: a concrete 21-landmark frame with the nose at the origin
and both index fingers above the nose but at distance sqrt 2 > 0.2: the
evaluator returns false although the vertical condition holds. -/
theorem C5_gesture_characterization_witness :
    ¬ checkFingerOnHead (some
      ([(⟨0, 0⟩ : Landmark)] ++ List.replicate 18 (⟨0, 0⟩ : Landmark) ++
        [(⟨1, -1⟩ : Landmark), (⟨1, -1⟩ : Landmark)])) :=
  (C5_gesture_characterization
      ([(⟨0, 0⟩ : Landmark)] ++ List.replicate 18 (⟨0, 0⟩ : Landmark) ++
        [(⟨1, -1⟩ : Landmark), (⟨1, -1⟩ : Landmark)])
      ⟨0, 0⟩ ⟨1, -1⟩ ⟨1, -1⟩ rfl rfl rfl).2
    (by
      rw [Real.lt_sqrt (by norm_num)]
      norm_num)
    (by
      rw [Real.lt_sqrt (by norm_num)]
      norm_num)

/-- C6: when the landmark frame is absent or empty, or any of the nose,
left-index or right-index landmarks is missing from it, the gesture
evaluator returns false; totality of the embedded function models that the
source returns normally rather than raising an error. -/
theorem C6_gesture_missing_landmarks :
    ¬ checkFingerOnHead none ∧
    ¬ checkFingerOnHead (some []) ∧
    (∀ ls : List Landmark,
      (ls.get? POSE_LANDMARKS_NOSE = none ∨
       ls.get? POSE_LANDMARKS_LEFT_INDEX = none ∨
       ls.get? POSE_LANDMARKS_RIGHT_INDEX = none) →
      ¬ checkFingerOnHead (some ls)) := by
  refine ⟨by simp [checkFingerOnHead], by simp [checkFingerOnHead], ?_⟩
  intro ls h hck
  simp only [checkFingerOnHead] at hck
  by_cases hlen : ls.length = 0
  · rw [if_pos hlen] at hck
    exact hck
  · rw [if_neg hlen] at hck
    cases hn : ls.get? POSE_LANDMARKS_NOSE with
    | none => rw [hn] at hck; exact hck
    | some nose =>
      cases hl : ls.get? POSE_LANDMARKS_LEFT_INDEX with
      | none => rw [hn, hl] at hck; exact hck
      | some li =>
        cases hr : ls.get? POSE_LANDMARKS_RIGHT_INDEX with
        | none => rw [hn, hl, hr] at hck; exact hck
        | some ri =>
          obtain ⟨hlt0, -⟩ := List.get?_eq_some.mp hn
          obtain ⟨hlt19, -⟩ := List.get?_eq_some.mp hl
          obtain ⟨hlt20, -⟩ := List.get?_eq_some.mp hr
          simp only [List.get?_eq_none] at h
          rcases h with h | h | h <;> omega

/-- C6 witness: a frame holding only a nose landmark (indices 19 and 20
are out of range) makes the evaluator return false. -/
theorem C6_gesture_missing_landmarks_witness :
    ¬ checkFingerOnHead (some [(⟨0, 0⟩ : Landmark)]) :=
  C6_gesture_missing_landmarks.2.2 [(⟨0, 0⟩ : Landmark)]
    (Or.inr (Or.inl rfl))

/-- C7 counterexample: in CapturingBackground with a zero-dimension video
frame and an obtainable 2d context, the capture effect still stores a
background plate and transitions to Active: the code contains no check of
the frame dimensions, contradicting the claim that the transition is
blocked and that no plate is stored. -/
theorem C7_counterexample :
    captureBackgroundEffect AppState.capturingBackground
      (some ⟨0, 0⟩) true none = (AppState.active, some ⟨0, 0⟩) := rfl

/-- C7 (amended): the capture effect guards only on the availability of a
2d canvas context, never on the frame dimensions: in CapturingBackground
with any current frame — zero-dimension frames included — an obtainable
context stores the plate (at those dimensions) and transitions to Active,
while an unobtainable context leaves the state in CapturingBackground and
the stored plate unchanged. -/
theorem C7_capture_amended (dims : VideoDims) (plate : Option VideoDims) :
    captureBackgroundEffect AppState.capturingBackground (some dims) true plate =
      (AppState.active, some dims) ∧
    captureBackgroundEffect AppState.capturingBackground (some dims) false plate =
      (AppState.capturingBackground, plate) :=
  ⟨rfl, rfl⟩

/-- C9: if stop() ran while camera acquisition was still pending (isStopped
is set when the getUserMedia continuation resumes), the continuation stops
the tracks of the freshly arrived stream immediately and aborts: the
resulting service state is exactly the entry state with the arrived tracks
stopped, so the stream is never attached and the per-frame processing loop
is never started. Moreover stop is idempotent — running it twice equals
running it once — so it is safe to call multiple times or before
initialization completes. -/
theorem C9_stop_semantics :
    (∀ s : ServiceState, s.isStopped = true →
      MediaPipeService.initializeAfterStream s =
        { s with streamTracksLive := false }) ∧
    (∀ s : ServiceState,
      MediaPipeService.stop (MediaPipeService.stop s) = MediaPipeService.stop s) := by
  constructor
  · intro s h
    simp [MediaPipeService.initializeAfterStream, h]
  · intro s
    simp [MediaPipeService.stop]

/-- C9 witness: the theorem evaluated on a concrete stopped-while-pending
service state. -/
theorem C9_stop_semantics_witness :
    (⟨true, false, false, false, false, true⟩ : ServiceState).isStopped = true ∧
    MediaPipeService.initializeAfterStream
        ⟨true, false, false, false, false, true⟩ =
      { (⟨true, false, false, false, false, true⟩ : ServiceState) with
          streamTracksLive := false } :=
  ⟨rfl, C9_stop_semantics.1 ⟨true, false, false, false, false, true⟩ rfl⟩

/-- C10: on every render tick whose latest inference result is absent or
carries no segmentation mask, the mask surface and its texture are left
completely unchanged (so the shader keeps sampling the most recently
ingested mask); and the mask canvas is resized only on ticks whose results
do carry a mask and whose current canvas size differs from the native
video size, in which case the new size is exactly the video size. -/
theorem C10_mask_ingestion :
    (∀ (m : MaskSurface) (vw vh : ℕ) (ctx : Bool),
      updateMaskFromResults m none vw vh ctx = m) ∧
    (∀ (m : MaskSurface) (r : MPResults) (vw vh : ℕ) (ctx : Bool),
      r.segmentationMask = none →
      updateMaskFromResults m (some r) vw vh ctx = m) ∧
    (∀ (m : MaskSurface) (res : Option MPResults) (vw vh : ℕ) (ctx : Bool),
      ((updateMaskFromResults m res vw vh ctx).width ≠ m.width ∨
       (updateMaskFromResults m res vw vh ctx).height ≠ m.height) →
      (∃ r k, res = some r ∧ r.segmentationMask = some k) ∧
      (m.width ≠ vw ∨ m.height ≠ vh) ∧
      (updateMaskFromResults m res vw vh ctx).width = vw ∧
      (updateMaskFromResults m res vw vh ctx).height = vh) := by
  refine ⟨fun m vw vh ctx => rfl, ?_, ?_⟩
  · intro m r vw vh ctx hmask
    simp [updateMaskFromResults, hmask]
  · intro m res vw vh ctx hchanged
    match res with
    | none => simp [updateMaskFromResults] at hchanged
    | some r =>
      match hmask : r.segmentationMask with
      | none => simp [updateMaskFromResults, hmask] at hchanged
      | some k =>
        refine ⟨⟨r, k, rfl, hmask⟩, ?_⟩
        by_cases hsz : m.width ≠ vw ∨ m.height ≠ vh
        · refine ⟨hsz, ?_⟩
          simp only [updateMaskFromResults, hmask, if_pos hsz]
          by_cases hctx : ctx = true <;>
            by_cases htex : m.textureCreated = false <;>
            simp [hctx, htex]
        · exfalso
          simp only [updateMaskFromResults, hmask, if_neg hsz] at hchanged
          by_cases hctx : ctx = true <;>
            by_cases htex : m.textureCreated = false <;>
            simp [hctx, htex] at hchanged

/-- C10 witness: the theorem evaluated on a concrete surface, once with a
maskless result (surface untouched) and once with a masked result at a
differing video size (surface resized to the video size). -/
theorem C10_mask_ingestion_witness :
    updateMaskFromResults ⟨10, 10, none, false, 0⟩
      (some ⟨1, none, none⟩) 20 30 true = ⟨10, 10, none, false, 0⟩ ∧
    (updateMaskFromResults ⟨10, 10, none, false, 0⟩
      (some ⟨1, some 5, none⟩) 20 30 true).width = 20 ∧
    (updateMaskFromResults ⟨10, 10, none, false, 0⟩
      (some ⟨1, some 5, none⟩) 20 30 true).height = 30 :=
  ⟨C10_mask_ingestion.2.1 ⟨10, 10, none, false, 0⟩ ⟨1, none, none⟩ 20 30 true rfl,
   (C10_mask_ingestion.2.2 ⟨10, 10, none, false, 0⟩
      (some ⟨1, some 5, none⟩) 20 30 true (Or.inl (by decide))).2.2⟩

/-- The invariant holds in the initial configuration. -/
theorem inv_initialConfig : Inv initialConfig := by
  simp [Inv, initialConfig]

/-- The invariant is preserved by every event step. -/
theorem inv_step (c : Config) (e : Ev) (h : Inv c) : Inv (stepEv c e) := by
  obtain ⟨st, pl, ct, rv⟩ := c
  obtain ⟨h1, h2, h3⟩ := h
  simp only [Inv] at *
  cases e with
  | initOk => cases st <;> simp_all [stepEv]
  | initFail => cases st <;> simp_all [stepEv]
  | frame lm =>
    cases st <;>
      simp_all [stepEv, wrappedOnResultsStep] <;>
      split_ifs <;>
      simp_all
  | capture video ctx =>
    cases st <;> cases video <;>
      simp_all [stepEv, captureBackgroundEffect] <;>
      split_ifs <;>
      simp_all
  | renderTick touch dt => cases st <;> simp_all [stepEv]
  | restart => cases st <;> simp_all [stepEv]

/-- Every reachable configuration satisfies the invariant. -/
theorem reachable_inv {c : Config} (h : Reachable c) : Inv c := by
  induction h with
  | init => exact inv_initialConfig
  | step e _ ih => exact inv_step _ e ih

/-- C8: in every reachable configuration the background plate is defined
iff the session state is Active; once Active, every further event keeps the
state Active and leaves the plate unchanged (set exactly at the Active
transition, read-only afterward); and from Error a restart event yields
exactly the initial configuration: Initializing with the plate, the reveal
factor and the debounce counter at their initial values. -/
theorem C8_plate_invariant_and_restart (c : Config) (h : Reachable c) :
    (c.backgroundPlate.isSome = true ↔ c.appState = AppState.active) ∧
    (c.appState = AppState.error → stepEv c Ev.restart = initialConfig) ∧
    (c.appState = AppState.active → ∀ e : Ev,
      (stepEv c e).appState = AppState.active ∧
      (stepEv c e).backgroundPlate = c.backgroundPlate) := by
  obtain ⟨h1, h2, h3⟩ := reachable_inv h
  obtain ⟨st, pl, ct, rv⟩ := c
  refine ⟨h1, ?_, ?_⟩
  · intro herr
    simp only at herr
    subst herr
    have hpl : pl = none := by
      cases pl with
      | none => rfl
      | some d => simp at h1
    have hct : ct = 0 := h3 (Or.inr rfl)
    have hrv : rv = 0 := h2 (by simp)
    subst hpl hct hrv
    rfl
  · intro hact e
    simp only at hact
    subst hact
    cases e with
    | initOk => exact ⟨rfl, rfl⟩
    | initFail => exact ⟨rfl, rfl⟩
    | frame lm => exact ⟨rfl, rfl⟩
    | capture video ctx =>
      cases video with
      | none => exact ⟨rfl, rfl⟩
      | some d => exact ⟨rfl, rfl⟩
    | renderTick touch dt => exact ⟨rfl, rfl⟩
    | restart => exact ⟨rfl, rfl⟩

/-- C8 witness: the theorem evaluated at the concrete reachable Error
configuration obtained by a failing initialization, showing the restart
step lands exactly on the initial configuration. -/
theorem C8_plate_invariant_and_restart_witness :
    stepEv (stepEv initialConfig Ev.initFail) Ev.restart = initialConfig :=
  (C8_plate_invariant_and_restart (stepEv initialConfig Ev.initFail)
    (Reachable.step Ev.initFail Reachable.init)).2.1 (by decide)

/-- Mixing with weight zero returns the first color. -/
theorem mixV4_zero (a b : Vec4) : mixV4 a b 0 = a := by
  cases a
  cases b
  simp [mixV4, glslMix]

/-- C3: at a pixel whose sampled mask value is 0, the shader output equals
the edge/background-blended color for every reveal factor — the live video
color never contributes outside the mask. -/
theorem C3_mask_zero_blend (uTime : ℝ)
    (uBackgroundTexture uVideoTexture uMaskTexture : Vec2 → Vec4)
    (uResolution vUv : Vec2)
    (hmask : (uMaskTexture vUv).x = 0) (uRevealFactor : ℝ) :
    fragmentMain uTime uBackgroundTexture uVideoTexture uMaskTexture
      uRevealFactor uResolution vUv =
    edgeBackgroundBlend uTime uBackgroundTexture uMaskTexture uResolution vUv := by
  simp only [fragmentMain, edgeBackgroundBlend, hmask, mul_zero, mixV4_zero]

/-- C3 witness: the theorem evaluated with a constant-zero mask texture,
concrete background and video textures and reveal factor one half. -/
theorem C3_mask_zero_blend_witness :
    ((fun _ : Vec2 => (⟨0, 0, 0, 0⟩ : Vec4)) (⟨0, 0⟩ : Vec2)).x = 0 ∧
    fragmentMain 0 (fun _ => ⟨1, 0, 0, 1⟩) (fun _ => ⟨0, 1, 0, 1⟩)
        (fun _ => ⟨0, 0, 0, 0⟩) (1 / 2) ⟨1, 1⟩ ⟨0, 0⟩ =
      edgeBackgroundBlend 0 (fun _ => ⟨1, 0, 0, 1⟩) (fun _ => ⟨0, 0, 0, 0⟩)
        ⟨1, 1⟩ ⟨0, 0⟩ :=
  ⟨rfl,
   C3_mask_zero_blend 0 (fun _ => ⟨1, 0, 0, 1⟩) (fun _ => ⟨0, 1, 0, 1⟩)
     (fun _ => ⟨0, 0, 0, 0⟩) ⟨1, 1⟩ ⟨0, 0⟩ rfl (1 / 2)⟩

/-- Componentwise unfolding of vec2 addition. -/
theorem Vec2.add_def (a b : Vec2) : a + b = ⟨a.x + b.x, a.y + b.y⟩ := rfl

/-- Componentwise unfolding of vec2 subtraction. -/
theorem Vec2.sub_def (a b : Vec2) : a - b = ⟨a.x - b.x, a.y - b.y⟩ := rfl

/-- Componentwise unfolding of vec2 scaling. -/
theorem Vec2.hmul_def (v : Vec2) (s : ℝ) : v * s = ⟨v.x * s, v.y * s⟩ := rfl

/-- C4: the fragment shader computes, for every pixel, exactly the
composition the spec describes: the edge intensity is the smoothstep over
0.0 to 2.5 of the magnitude of the Sobel-weighted 8-neighbor mask gradient
sampled at a radius of 5 texels, and the output starts from the clean
background color, is blended toward the liquid color with the edge
intensity as the weight, and then toward the live-video color with
RevealFactor times maskValue as the final weight. -/
theorem C4_composition_order (uTime : ℝ)
    (uBackgroundTexture uVideoTexture uMaskTexture : Vec2 → Vec4)
    (uRevealFactor : ℝ) (uResolution vUv : Vec2) :
    fragmentMain uTime uBackgroundTexture uVideoTexture uMaskTexture
      uRevealFactor uResolution vUv =
    compositionOrderSpec (uBackgroundTexture vUv)
      (liquidColorAt uTime uBackgroundTexture vUv)
      (uVideoTexture vUv)
      (edgeIntensitySpec uMaskTexture uResolution vUv)
      uRevealFactor ((uMaskTexture vUv).x) := by
  simp only [fragmentMain, compositionOrderSpec, liquidColorAt,
    edgeIntensitySpec, glslLength2, dot2, Vec2.add_def, Vec2.sub_def,
    Vec2.hmul_def, pow_two, add_zero, sub_zero, ← sub_eq_add_neg]
  norm_num

end Invisible
